import Mathlib

/-
Shallow embedding of the ConvertKit analytics reporting service
(services/convertkit_service.py, services/open_rate_service.py,
services/report_service.py, utils/date_utils.py, utils/constants.py,
app.py), together with theorems settling the frozen claims about it.

Conventions of the embedding:
- Python ints are Nat/Int, Python division results and rounded rates are Rat.
- The built-in round(x, 1) is modelled exactly on Rat as round-half-to-even
  at one decimal digit (pyRound1).
- Python str.lower() is modelled on the ASCII fragment by pyLower,
  and the substring test (needle in haystack) by substrIn.
- datetime values are modelled as day numbers (Int, days since 1970-01-01)
  or as civil dates (Date); timedelta arithmetic is exact day arithmetic.
- HTTP traffic is modelled by explicit response values: a paginated
  endpoint is a list of Page values in the order the transport serves
  them, and a one-shot endpoint is a single response record.
-/

/-! ## Constants (utils/constants.py) -/

def PER_PAGE_PARAM : ℕ := 1000

def DEFAULT_FACEBOOK_TAG : ℕ := 4155625

def DEFAULT_CREATOR_TAG : ℕ := 4090509

def DEFAULT_SPARKLOOP_TAG : ℕ := 5023500

def MAX_RETRIES : ℕ := 3

def RETRY_DELAY : ℕ := 1

def BEFORE_PERIOD_DAYS : ℤ := 60

def AFTER_PERIOD_START_DAYS : ℤ := 45

def AFTER_PERIOD_DAYS : ℤ := 60

/-! ## Python round(x, 1) on exact rationals -/

/-- Floor of a rational number. -/
def ratFloor (x : ℚ) : ℤ := ⌊x⌋

/-- Round a rational to the nearest integer, ties to the even integer
(the rounding mode of the Python built-in round). -/
def roundHalfEven (x : ℚ) : ℤ :=
  let f := ratFloor x
  let frac := x - (f : ℚ)
  if frac < 1 / 2 then f
  else if (1 / 2 : ℚ) < frac then f + 1
  else if f % 2 = 0 then f else f + 1

/-- Python round(x, 1): round to one decimal digit, ties to even. -/
def pyRound1 (x : ℚ) : ℚ := (roundHalfEven (10 * x) : ℚ) / 10

/-- Modelled from the spec (section 8): the common rate shape every computed
rate is claimed to satisfy; round(r / t * 100, 1) for a positive
denominator and 0 for a zero denominator. -/
def computeRate (r t : ℕ) : ℚ :=
  if 0 < t then pyRound1 ((r : ℚ) / (t : ℚ) * 100) else 0

/-! ## Dates (utils/date_utils.py) -/

/-- Civil (Gregorian) calendar date, as Python datetime exposes it. -/
structure Date where
  year : ℤ
  month : ℤ
  day : ℤ
deriving DecidableEq

/-- Day number of a civil date, with day 0 = 1970-01-01 (the standard
days-from-civil computation; Python datetime arithmetic is exact on days). -/
def days_from_civil (dt : Date) : ℤ :=
  let y := if dt.month ≤ 2 then dt.year - 1 else dt.year
  let era := (if 0 ≤ y then y else y - 399) / 400
  let yoe := y - era * 400
  let doy := (153 * (dt.month + (if 2 < dt.month then -3 else 9)) + 2) / 5 + dt.day - 1
  let doe := yoe * 365 + yoe / 4 - yoe / 100 + doy
  era * 146097 + doe - 719468

/-- Civil date of a day number, inverse of days_from_civil on the range of
dates Python datetime supports. -/
def civil_from_days (z : ℤ) : Date :=
  let z2 := z + 719468
  let era := (if 0 ≤ z2 then z2 else z2 - 146096) / 146097
  let doe := z2 - era * 146097
  let yoe := (doe - doe / 1460 + doe / 36524 - doe / 146096) / 365
  let y := yoe + era * 400
  let doy := doe - (365 * yoe + yoe / 4 - yoe / 100)
  let mp := (5 * doy + 2) / 153
  let d := doy - (153 * mp + 2) / 5 + 1
  let m := mp + (if mp < 10 then 3 else -9)
  ⟨if m ≤ 2 then y + 1 else y, m, d⟩

/-- Shift a civil date by a number of days (Python date + timedelta(days=n)). -/
def date_add_days (dt : Date) (n : ℤ) : Date :=
  civil_from_days (days_from_civil dt + n)

/-- Result record of calculate_period_dates (date_utils.py). -/
structure PeriodDates where
  before_start : Date
  before_end : Date
  after_start : Date
  after_end : Date
  before_days : ℤ
  after_days : ℤ
deriving DecidableEq

/-- Embedding of date_utils.calculate_period_dates: before and after report
windows derived from the client reference date by fixed day offsets. -/
def calculate_period_dates (paperboy_start_date : Date)
    (before_days : ℤ := 60) (after_start_days : ℤ := 45) (after_days : ℤ := 60) :
    PeriodDates :=
  let before_start := date_add_days paperboy_start_date (-before_days)
  let before_end := paperboy_start_date
  let after_start := date_add_days paperboy_start_date after_start_days
  let after_end := date_add_days after_start after_days
  ⟨before_start, before_end, after_start, after_end, before_days, after_days⟩

/-! ## Growth report arithmetic (services/report_service.py and app.py) -/

/-- Numeric fields of the report built by
report_service.generate_subscriber_report. -/
structure SubscriberReport where
  total_subscribers : ℕ
  facebook_subscribers : ℕ
  facebook_percent : ℚ
  creator_subscribers : ℕ
  creator_percent : ℚ
  sparkloop_subscribers : ℕ
  sparkloop_percent : ℚ
  organic_subscribers : ℤ
  organic_percent : ℚ
  total_growth : ℤ
  growth_rate : ℚ
  paid_subscribers : ℕ
  paid_growth_percent : ℚ
deriving DecidableEq

/-- Embedding of the arithmetic core of
report_service.generate_subscriber_report: counts arrive from the gateway
(total via the count-only fast path, the three category counts as list
lengths), the rest is pure arithmetic exactly as in the source. -/
def generate_subscriber_report (total_count facebook_count creator_count
    sparkloop_count current_total initial_count : ℕ) : SubscriberReport :=
  let attributed_count := facebook_count + creator_count + sparkloop_count
  let organic_count : ℤ := (total_count : ℤ) - (attributed_count : ℤ)
  let total_growth : ℤ := (current_total : ℤ) - (initial_count : ℤ)
  let growth_rate : ℚ :=
    if 0 < initial_count then pyRound1 ((total_growth : ℚ) / (initial_count : ℚ) * 100) else 0
  let facebook_percent : ℚ :=
    if 0 < total_count then pyRound1 ((facebook_count : ℚ) / (total_count : ℚ) * 100) else 0
  let creator_percent : ℚ :=
    if 0 < total_count then pyRound1 ((creator_count : ℚ) / (total_count : ℚ) * 100) else 0
  let sparkloop_percent : ℚ :=
    if 0 < total_count then pyRound1 ((sparkloop_count : ℚ) / (total_count : ℚ) * 100) else 0
  let organic_percent : ℚ :=
    if 0 < total_count then pyRound1 ((organic_count : ℚ) / (total_count : ℚ) * 100) else 0
  let paid_count := facebook_count + sparkloop_count
  let paid_percent : ℚ :=
    if 0 < total_count then pyRound1 ((paid_count : ℚ) / (total_count : ℚ) * 100) else 0
  { total_subscribers := total_count
    facebook_subscribers := facebook_count
    facebook_percent := facebook_percent
    creator_subscribers := creator_count
    creator_percent := creator_percent
    sparkloop_subscribers := sparkloop_count
    sparkloop_percent := sparkloop_percent
    organic_subscribers := organic_count
    organic_percent := organic_percent
    total_growth := total_growth
    growth_rate := growth_rate
    paid_subscribers := paid_count
    paid_growth_percent := paid_percent }

/-- Embedding of the growth-rate computation of app.generate_report
(app.py line 322). The division there carries no zero guard: a zero
initial_count raises ZeroDivisionError, the surrounding handler catches it
and the whole report becomes None; this is modelled as none. -/
def app_generate_report_growth_rate (current_total initial_count : ℕ) : Option ℚ :=
  if initial_count = 0 then none
  else some (pyRound1 (((current_total : ℚ) - (initial_count : ℚ)) / (initial_count : ℚ) * 100))

/-! ## Remote data model and gateway results -/

/-- Broadcast record as consumed by the services: remote id and the parsed
published_at timestamp (seconds since the epoch; none when the field is
missing). -/
structure Broadcast where
  id : ℕ
  published_at : Option ℤ
deriving DecidableEq

/-- Stats payload of GET /broadcasts/{id}/stats. -/
structure BroadcastStats where
  recipients : ℕ
  opens : ℕ
deriving DecidableEq

/-- Interface of ConvertKitService as the open-rate service consumes it:
each field gives the (already paginated and normalized) result the named
gateway method returns for given arguments. Subscriber records are
identified by their integer ids, which is all the service reads from them. -/
structure Gateway where
  get_broadcasts : String → String → List Broadcast
  get_tagged_subscribers : ℕ → String → String → List ℕ
  get_broadcast_subscribers : ℕ → Option String → List ℕ
  get_broadcast_stats : ℕ → Option BroadcastStats

/-! ## Open-rate service (services/open_rate_service.py) -/

/-- Result record of calculate_overall_open_rate. -/
structure OverallOpenRate where
  average_open_rate : ℚ
  total_broadcasts : ℕ
  total_recipients : ℕ
  total_opens : ℕ
deriving DecidableEq

/-- Accumulation loop of calculate_overall_open_rate: per broadcast, add the
recipients and opens of its stats payload when the stats call yields data,
and count the broadcast. Returns (total_recipients, total_opens,
broadcast_count). -/
def overall_totals (gw : Gateway) : List Broadcast → ℕ × ℕ × ℕ
  | [] => (0, 0, 0)
  | b :: rest =>
    let t := overall_totals gw rest
    match gw.get_broadcast_stats b.id with
    | some stats => (stats.recipients + t.1, stats.opens + t.2.1, 1 + t.2.2)
    | none => t

/-- Embedding of OpenRateService.calculate_overall_open_rate. -/
def calculate_overall_open_rate (gw : Gateway) (start_date end_date : String) :
    OverallOpenRate :=
  let broadcasts := gw.get_broadcasts start_date end_date
  if broadcasts.isEmpty then ⟨0, 0, 0, 0⟩
  else
    let t := overall_totals gw broadcasts
    let average_open_rate : ℚ :=
      if 0 < t.1 then pyRound1 ((t.2.1 : ℚ) / (t.1 : ℚ) * 100) else 0
    ⟨average_open_rate, t.2.2, t.1, t.2.1⟩

/-- Result record of calculate_open_rate_by_tag. -/
structure TagOpenRate where
  tag_id : ℕ
  average_open_rate : ℚ
  total_recipients : ℕ
  total_opens : ℕ
deriving DecidableEq

/-- Accumulation loop of calculate_open_rate_by_tag: per broadcast, fetch
the recipient ids and the opened ids, intersect each with the tagged-id
set, and add the two intersection sizes. Returns (total_tag_recipients,
total_tag_opens). -/
def tag_totals (gw : Gateway) (tagged_subscriber_ids : Finset ℕ) :
    List Broadcast → ℕ × ℕ
  | [] => (0, 0)
  | b :: rest =>
    let recipient_ids := (gw.get_broadcast_subscribers b.id none).toFinset
    let opened_ids := (gw.get_broadcast_subscribers b.id (some "opened")).toFinset
    let t := tag_totals gw tagged_subscriber_ids rest
    ((recipient_ids ∩ tagged_subscriber_ids).card + t.1,
     (opened_ids ∩ tagged_subscriber_ids).card + t.2)

/-- Embedding of OpenRateService.calculate_open_rate_by_tag: the tagged-id
set is built from the widened window 2000-01-01 through end_date, then per
broadcast in the report window the recipient and opened id sets are
intersected with it. -/
def calculate_open_rate_by_tag (gw : Gateway) (start_date end_date : String)
    (tag_id : ℕ) : TagOpenRate :=
  let broadcasts := gw.get_broadcasts start_date end_date
  if broadcasts.isEmpty then ⟨tag_id, 0, 0, 0⟩
  else
    let tagged_subscribers := gw.get_tagged_subscribers tag_id "2000-01-01" end_date
    let tagged_subscriber_ids : Finset ℕ := tagged_subscribers.toFinset
    if tagged_subscriber_ids = ∅ then ⟨tag_id, 0, 0, 0⟩
    else
      let t := tag_totals gw tagged_subscriber_ids broadcasts
      let average_open_rate : ℚ :=
        if 0 < t.1 then pyRound1 ((t.2 : ℚ) / (t.1 : ℚ) * 100) else 0
      ⟨tag_id, average_open_rate, t.1, t.2⟩

/-! ## Pagination loops (services/convertkit_service.py) -/

/-- Response page of a paginated list endpoint: HTTP status, the records of
the page (by id), and the has_next_page flag of the pagination block. A
simulated transport is the list of pages in the order it serves them. -/
structure Page where
  status : ℕ
  records : List ℕ
  has_next_page : Bool
deriving DecidableEq

/-- Shared pagination loop of get_subscribers (full variant),
get_tagged_subscribers and get_broadcast_subscribers: consume the first
page if its status is 200, then keep following has_next_page, silently
stopping at the first non-200 page. Returns the accumulated records and
the number of requests issued. -/
def paginate : List Page → List ℕ × ℕ
  | [] => ([], 0)
  | p :: rest =>
    if p.status = 200 then
      if p.has_next_page then
        let t := paginate rest
        (p.records ++ t.1, 1 + t.2)
      else (p.records, 1)
    else ([], 1)

/-- Embedding of the full-record variant of ConvertKitService.get_subscribers
(count_only = False): the record accumulation of the pagination loop. -/
def get_subscribers_full (pages : List Page) : List ℕ :=
  (paginate pages).1

/-- Modelled from the spec (testable property of section 8): the single-shot
return-all result a well-formed paginated sequence must concatenate to. -/
def return_all (pages : List Page) : List ℕ :=
  (pages.map Page.records).flatten

/-- Decidable well-formedness of a simulated paginated sequence: every page
reports status 200, every page but the last has has_next_page = true, and
the last page has has_next_page = false. -/
def chainOk : List Page → Bool
  | [] => true
  | [p] => p.status == 200 && !p.has_next_page
  | p :: q :: rest => p.status == 200 && p.has_next_page && chainOk (q :: rest)

/-- Truthiness of the optional tag id argument, as Python evaluates it:
None and 0 are falsy. -/
def pyFalsy : Option ℕ → Bool
  | none => true
  | some n => n == 0

/-- Embedding of ConvertKitService.get_tagged_subscribers: a falsy tag id
short-circuits to the empty list before any request is issued; otherwise
the pagination loop runs against the transport. Returns the records and
the number of requests issued. -/
def get_tagged_subscribers (tag_id : Option ℕ) (start_date end_date : String)
    (pages : List Page) : List ℕ × ℕ :=
  if pyFalsy tag_id then ([], 0)
  else paginate pages

/-! ## One-shot endpoints and their error handling -/

/-- Response of a count-only subscriber query: HTTP status and the
pagination.total_count field of the body. -/
structure CountResponse where
  status : ℕ
  total_count : ℕ
deriving DecidableEq

/-- Embedding of the count_only = True path of get_subscribers: on 200 the
total_count field is returned, on anything else 0. -/
def get_subscribers_count_only (resp : CountResponse) : ℕ :=
  if resp.status = 200 then resp.total_count else 0

/-- Embedding of ConvertKitService.get_current_total_subscribers. -/
def get_current_total_subscribers (resp : CountResponse) : ℕ :=
  if resp.status = 200 then resp.total_count else 0

/-- Embedding of ConvertKitService.get_subscriber_count_at_date. -/
def get_subscriber_count_at_date (resp : CountResponse) : ℕ :=
  if resp.status = 200 then resp.total_count else 0

/-- Response of the broadcast stats endpoint: HTTP status and the
broadcast.stats payload of the body. -/
structure StatsResponse where
  status : ℕ
  stats : BroadcastStats
deriving DecidableEq

/-- Embedding of ConvertKitService.get_broadcast_stats: on 200 the stats
payload, on anything else None. -/
def get_broadcast_stats_of (resp : StatsResponse) : Option BroadcastStats :=
  if resp.status = 200 then some resp.stats else none

/-- Embedding of ConvertKitService.get_broadcast_subscribers: the shared
pagination loop (records only). -/
def get_broadcast_subscribers_of (pages : List Page) : List ℕ :=
  (paginate pages).1

/-! ## Rate-limited request loop (convertkit_service._rate_limited_request) -/

/-- Retry loop of _rate_limited_request, over a transport that answers
attempt number i (0-based) with HTTP status (status i). The pair returned
is the 0-based index of the attempt whose response the function returns,
and the list of sleep durations performed, in order. The fuel argument is
the number of loop iterations left (MAX_RETRIES at the top call); when it
runs out the response of the last attempt is returned. -/
def rate_limited_go (status : ℕ → ℕ) : ℕ → ℕ → ℕ × List ℕ
  | attempt, 0 => (attempt - 1, [])
  | attempt, fuel + 1 =>
    if status attempt = 429 then
      let t := rate_limited_go status (attempt + 1) fuel
      (t.1, RETRY_DELAY * (attempt + 1) :: t.2)
    else (attempt, [])

/-- Embedding of ConvertKitService._rate_limited_request: up to MAX_RETRIES
attempts, sleeping RETRY_DELAY * (attempt + 1) after each 429, returning
the first non-429 response, or the last response when every attempt
returned 429. -/
def rate_limited_request (status : ℕ → ℕ) : ℕ × List ℕ :=
  rate_limited_go status 0 MAX_RETRIES

/-! ## Broadcast listing and its date window (convertkit_service.get_broadcasts) -/

/-- Response page of the broadcasts endpoint. -/
structure BroadcastPage where
  status : ℕ
  broadcasts : List Broadcast
  has_next_page : Bool
deriving DecidableEq

/-- Client-side date filter of get_broadcasts as the code performs it:
start_dt is midnight of start_date and end_dt is midnight of end_date
(datetime.strptime of a plain YYYY-MM-DD string), and a broadcast is kept
when start_dt <= published_at <= end_dt. Days are day numbers and
timestamps are seconds since the epoch. -/
def in_window_code (start_day end_day : ℤ) (b : Broadcast) : Bool :=
  match b.published_at with
  | some t => decide (86400 * start_day ≤ t) && decide (t ≤ 86400 * end_day)
  | none => false

/-- Modelled from the spec (sections 3 and 4.1): the inclusive calendar-day
window with the end boundary normalized to the end of the end day
(T23:59:59Z), the filter get_broadcasts is claimed to apply. -/
def in_window_spec (start_day end_day : ℤ) (b : Broadcast) : Bool :=
  match b.published_at with
  | some t => decide (86400 * start_day ≤ t) && decide (t ≤ 86400 * end_day + 86399)
  | none => false

/-- Embedding of ConvertKitService.get_broadcasts: paginate the broadcasts
endpoint, filtering every 200 page by the client-side date window, and
stop silently at the first non-200 page. -/
def get_broadcasts_window (start_day end_day : ℤ) : List BroadcastPage → List Broadcast
  | [] => []
  | p :: rest =>
    if p.status = 200 then
      p.broadcasts.filter (in_window_code start_day end_day) ++
        (if p.has_next_page then get_broadcasts_window start_day end_day rest else [])
    else []

/-! ## Tag resolver (convertkit_service._find_closest_tag) -/

/-- Tag record of GET /tags. -/
structure RemoteTag where
  name : String
  id : ℕ
deriving DecidableEq

/-- Python str.lower() on a single character, on the ASCII fragment the tag
variants live in: code points 65-90 are shifted up by 32. -/
def pyLowerChar (c : Char) : Char :=
  if h : 65 ≤ c.toNat ∧ c.toNat ≤ 90 then
    Char.ofNatAux (c.toNat + 32) (Or.inl (by omega))
  else c

/-- Python str.lower() on a string, modelled characterwise. -/
def pyLower (s : String) : String := ⟨s.data.map pyLowerChar⟩

/-- Python substring containment (needle in haystack). -/
def substrIn (needle haystack : String) : Bool :=
  decide (needle.data <:+: haystack.data)

/-- Single insertion step of a Python dict comprehension: an existing key
keeps its position but its value is overwritten; a new key is appended. -/
def dictInsert (m : List (String × RemoteTag)) (k : String) (v : RemoteTag) :
    List (String × RemoteTag) :=
  if m.any (fun p => p.1 == k) then
    m.map (fun p => if p.1 == k then (k, v) else p)
  else m ++ [(k, v)]

/-- Embedding of the tag_map dict comprehension of _find_closest_tag:
keys are lower-cased tag names, in first-occurrence order, and on key
collision the later tag wins. -/
def build_tag_map (tags : List RemoteTag) : List (String × RemoteTag) :=
  tags.foldl (fun m t => dictInsert m (pyLower t.name) t) []

/-- Variant scan of _find_closest_tag: for each variant in priority order,
return the id of the first entry of the tag map whose (lower-cased) key
contains the variant as a substring. -/
def find_variant_match (m : List (String × RemoteTag)) : List String → Option ℕ
  | [] => none
  | v :: vs =>
    match m.find? (fun p => substrIn v (pyLower p.1)) with
    | some p => some p.2.id
    | none => find_variant_match m vs

/-- Static variant lists of constants.TAG_VARIATIONS. -/
def TAG_VARIATIONS (tag_type : String) : List String :=
  if tag_type = "facebook" then
    ["facebook ads", "facebook ad", "fb ads", "fb ad", "facebook", "paid ads", "paid"]
  else if tag_type = "creator" then
    ["creator network", "creator", "network", "cn", "ambassador"]
  else if tag_type = "sparkloop" then
    ["sparkloop", "spark loop", "spark", "loop", "referral", "refer"]
  else []

/-- Hardcoded per-category default tag ids of _find_closest_tag. -/
def default_tags (tag_type : String) : Option ℕ :=
  if tag_type = "facebook" then some DEFAULT_FACEBOOK_TAG
  else if tag_type = "creator" then some DEFAULT_CREATOR_TAG
  else if tag_type = "sparkloop" then some DEFAULT_SPARKLOOP_TAG
  else none

/-- Embedding of ConvertKitService._find_closest_tag. -/
def find_closest_tag (tags : List RemoteTag) (tag_type : String) : Option ℕ :=
  match find_variant_match (build_tag_map tags) (TAG_VARIATIONS tag_type) with
  | some i => some i
  | none => default_tags tag_type

/-- Transcription of the claim's description of the algorithm (and the
spec's, section 4.2): iterate the variants in priority order and return
the id of the first TAG IN THE GIVEN LIST whose lower-cased name contains
the variant; fall back to the per-category default. This differs from the
code when two tags share a lower-cased name, because the dict comprehension
collapses them. -/
def find_closest_tag_claim (tags : List RemoteTag) : List String → Option ℕ
  | [] => none
  | v :: vs =>
    match tags.find? (fun t => substrIn v (pyLower t.name)) with
    | some t => some t.id
    | none => find_closest_tag_claim tags vs

/-- Claim-side resolver: the variant scan over the raw tag list, with the
default fallback. -/
def find_closest_tag_claimed (tags : List RemoteTag) (tag_type : String) : Option ℕ :=
  match find_closest_tag_claim tags (TAG_VARIATIONS tag_type) with
  | some i => some i
  | none => default_tags tag_type

/-! ## Helper lemmas -/

theorem toNat_ofNatAux (n : ℕ) (h : n.isValidChar) : (Char.ofNatAux n h).toNat = n := by
  simp [Char.ofNatAux, Char.toNat, UInt32.toNat, BitVec.toNat_ofNatLt]

theorem pyLowerChar_idem (c : Char) : pyLowerChar (pyLowerChar c) = pyLowerChar c := by
  unfold pyLowerChar
  by_cases h : 65 ≤ c.toNat ∧ c.toNat ≤ 90
  · simp only [h, dif_pos]
    have h2 : ¬ (65 ≤ (Char.ofNatAux (c.toNat + 32) (Or.inl (by omega))).toNat ∧
        (Char.ofNatAux (c.toNat + 32) (Or.inl (by omega))).toNat ≤ 90) := by
      rw [toNat_ofNatAux]
      omega
    simp [h2]
  · simp [h]

theorem pyLower_idem (s : String) : pyLower (pyLower s) = pyLower s := by
  have hc : pyLowerChar ∘ pyLowerChar = pyLowerChar := funext pyLowerChar_idem
  unfold pyLower
  simp [List.map_map, hc]

/-! ## Claim C3 -/

/-- Claim C3: for every reference date the derived before window is the
date 60 days back through the reference date and the after window starts
45 days forward and ends 60 days after that; for reference date 2024-02-09
the windows are exactly 2023-12-11 through 2024-02-09 and 2024-03-25
through 2024-05-24. -/
theorem claim_C3_period_dates :
    (∀ ref : Date,
      calculate_period_dates ref =
        ⟨date_add_days ref (-60), ref, date_add_days ref 45,
         date_add_days (date_add_days ref 45) 60, 60, 60⟩) ∧
    calculate_period_dates ⟨2024, 2, 9⟩ =
      ⟨⟨2023, 12, 11⟩, ⟨2024, 2, 9⟩, ⟨2024, 3, 25⟩, ⟨2024, 5, 24⟩, 60, 60⟩ :=
  ⟨fun _ => rfl, by decide⟩

/-! ## Claim C4 -/

/-- Claim C4: organic_count is total_count minus the sum of the three
attributed counts with no clamping (negative on overlapping tag sets,
witnessed concretely), paid_count is facebook_count + sparkloop_count, and
the quoted end-to-end scenario yields organic 650, facebook_percent 20.0,
organic_percent 65.0, paid_count 250, paid_percent 25.0. -/
theorem claim_C4_attribution_arithmetic :
    (∀ tc fb cr sp cur init : ℕ,
      (generate_subscriber_report tc fb cr sp cur init).organic_subscribers
          = (tc : ℤ) - ((fb : ℤ) + (cr : ℤ) + (sp : ℤ)) ∧
      (generate_subscriber_report tc fb cr sp cur init).paid_subscribers = fb + sp) ∧
    (generate_subscriber_report 100 200 0 0 0 0).organic_subscribers = -100 ∧
    (generate_subscriber_report 1000 200 100 50 45000 41000).organic_subscribers = 650 ∧
    (generate_subscriber_report 1000 200 100 50 45000 41000).facebook_percent = 20 ∧
    (generate_subscriber_report 1000 200 100 50 45000 41000).organic_percent = 65 ∧
    (generate_subscriber_report 1000 200 100 50 45000 41000).paid_subscribers = 250 ∧
    (generate_subscriber_report 1000 200 100 50 45000 41000).paid_growth_percent = 25 := by
  refine ⟨fun tc fb cr sp cur init => ⟨?_, rfl⟩, by decide, by decide, ?_, ?_, by decide, ?_⟩
  · simp [generate_subscriber_report]
  · norm_num [generate_subscriber_report, pyRound1, roundHalfEven, ratFloor]
  · norm_num [generate_subscriber_report, pyRound1, roundHalfEven, ratFloor]
  · norm_num [generate_subscriber_report, pyRound1, roundHalfEven, ratFloor]

/-! ## Claim C10 -/

/-- Claim C10: get_tagged_subscribers called with a falsy tag id (None or
0) returns the empty list with zero API requests issued, so the category
contributes a count of 0. -/
theorem claim_C10_falsy_tag (tag_id : Option ℕ) (start_date end_date : String)
    (pages : List Page) (h : tag_id = none ∨ tag_id = some 0) :
    get_tagged_subscribers tag_id start_date end_date pages = ([], 0) ∧
    (get_tagged_subscribers tag_id start_date end_date pages).1.length = 0 := by
  rcases h with h | h <;> subst h <;>
    simp [get_tagged_subscribers, pyFalsy]

/-- Witness for claim C10 at the concrete falsy id 0 against a nonempty
transport. -/
theorem claim_C10_falsy_tag_witness :
    ((some 0 : Option ℕ) = none ∨ (some 0 : Option ℕ) = some 0) ∧
    get_tagged_subscribers (some 0) "2024-01-01" "2024-01-31"
      [⟨200, [1, 2], false⟩] = ([], 0) :=
  ⟨Or.inr rfl,
   (claim_C10_falsy_tag (some 0) "2024-01-01" "2024-01-31"
     [⟨200, [1, 2], false⟩] (Or.inr rfl)).1⟩

/-! ## Claim C8 -/

/-- Claim C8: a non-200, non-429 response to the initial request of any
gateway operation yields the operation's empty or zero value: 0 for the
count queries, None for the stats query, and the empty list for the
record-list queries. -/
theorem claim_C8_error_swallowing (resp : CountResponse) (sresp : StatsResponse)
    (p : Page) (bp : BroadcastPage) (rest : List Page) (brest : List BroadcastPage)
    (start_date end_date : String) (start_day end_day : ℤ) (tag_id : ℕ)
    (h1 : resp.status ≠ 200) (h2 : resp.status ≠ 429)
    (h3 : sresp.status ≠ 200) (h4 : sresp.status ≠ 429)
    (h5 : p.status ≠ 200) (h6 : p.status ≠ 429)
    (h7 : bp.status ≠ 200) (h8 : bp.status ≠ 429) :
    get_subscribers_count_only resp = 0 ∧
    get_current_total_subscribers resp = 0 ∧
    get_subscriber_count_at_date resp = 0 ∧
    get_broadcast_stats_of sresp = none ∧
    get_subscribers_full (p :: rest) = [] ∧
    (get_tagged_subscribers (some (tag_id + 1)) start_date end_date (p :: rest)).1 = [] ∧
    get_broadcast_subscribers_of (p :: rest) = [] ∧
    get_broadcasts_window start_day end_day (bp :: brest) = [] := by
  refine ⟨?_, ?_, ?_, ?_, ?_, ?_, ?_, ?_⟩
  · simp [get_subscribers_count_only, h1]
  · simp [get_current_total_subscribers, h1]
  · simp [get_subscriber_count_at_date, h1]
  · simp [get_broadcast_stats_of, h3]
  · simp [get_subscribers_full, paginate, h5]
  · simp [get_tagged_subscribers, pyFalsy, paginate, h5]
  · simp [get_broadcast_subscribers_of, paginate, h5]
  · simp [get_broadcasts_window, h7]

/-- Witness for claim C8 at a concrete 500 response on every operation. -/
theorem claim_C8_error_swallowing_witness :
    ((500 : ℕ) ≠ 200 ∧ (500 : ℕ) ≠ 429) ∧
    get_subscribers_count_only ⟨500, 7⟩ = 0 ∧
    get_current_total_subscribers ⟨500, 7⟩ = 0 ∧
    get_subscriber_count_at_date ⟨500, 7⟩ = 0 ∧
    get_broadcast_stats_of ⟨500, ⟨10, 5⟩⟩ = none ∧
    get_subscribers_full [⟨500, [1], true⟩] = [] ∧
    (get_tagged_subscribers (some 5) "2024-01-01" "2024-01-31" [⟨500, [1], true⟩]).1 = [] ∧
    get_broadcast_subscribers_of [⟨500, [1], true⟩] = [] ∧
    get_broadcasts_window 0 0 [⟨500, [⟨1, some 0⟩], true⟩] = [] :=
  ⟨⟨by decide, by decide⟩,
   claim_C8_error_swallowing ⟨500, 7⟩ ⟨500, ⟨10, 5⟩⟩ ⟨500, [1], true⟩
     ⟨500, [⟨1, some 0⟩], true⟩ [] [] "2024-01-01" "2024-01-31" 0 0 4
     (by decide) (by decide) (by decide) (by decide) (by decide) (by decide)
     (by decide) (by decide)⟩

/-! ## Claim C1 -/

theorem tag_totals_eq_sums (gw : Gateway) (tg : Finset ℕ) (bs : List Broadcast) :
    tag_totals gw tg bs =
      ((bs.map (fun b => ((gw.get_broadcast_subscribers b.id none).toFinset ∩ tg).card)).sum,
       (bs.map (fun b => ((gw.get_broadcast_subscribers b.id (some "opened")).toFinset ∩ tg).card)).sum) := by
  induction bs with
  | nil => rfl
  | cons b rest ih => simp [tag_totals, ih]

/-- Concrete gateway for the quoted open-rate scenario: one broadcast,
recipients 1 2 3 4, opens 1 3, tagged subscribers 2 3 5. -/
def exampleGateway : Gateway where
  get_broadcasts := fun _ _ => [⟨7, some 0⟩]
  get_tagged_subscribers := fun _ _ _ => [2, 3, 5]
  get_broadcast_subscribers := fun _ filter_type =>
    match filter_type with
    | none => [1, 2, 3, 4]
    | some _ => [1, 3]
  get_broadcast_stats := fun _ => none

/-- Claim C1: calculate_open_rate_by_tag builds the tagged set from the
window widened to 2000-01-01 through end_date and accumulates, per
broadcast of the report window, the sizes of the intersections of the
recipient ids and of the opened ids with that set; on the quoted scenario
it counts 2 tagged recipients and 1 tagged open. -/
theorem claim_C1_open_rate_by_tag :
    (∀ (gw : Gateway) (start_date end_date : String) (tag_id : ℕ),
      (calculate_open_rate_by_tag gw start_date end_date tag_id).total_recipients
          = ((gw.get_broadcasts start_date end_date).map (fun b =>
              ((gw.get_broadcast_subscribers b.id none).toFinset ∩
                (gw.get_tagged_subscribers tag_id "2000-01-01" end_date).toFinset).card)).sum ∧
      (calculate_open_rate_by_tag gw start_date end_date tag_id).total_opens
          = ((gw.get_broadcasts start_date end_date).map (fun b =>
              ((gw.get_broadcast_subscribers b.id (some "opened")).toFinset ∩
                (gw.get_tagged_subscribers tag_id "2000-01-01" end_date).toFinset).card)).sum) ∧
    (calculate_open_rate_by_tag exampleGateway "2024-01-01" "2024-01-31" 42).total_recipients = 2 ∧
    (calculate_open_rate_by_tag exampleGateway "2024-01-01" "2024-01-31" 42).total_opens = 1 := by
  refine ⟨fun gw start_date end_date tag_id => ?_, by decide, by decide⟩
  unfold calculate_open_rate_by_tag
  by_cases hb : (gw.get_broadcasts start_date end_date).isEmpty
  · rw [List.isEmpty_iff] at hb
    simp [hb]
  · simp only [hb, if_false, Bool.false_eq_true]
    by_cases ht : (gw.get_tagged_subscribers tag_id "2000-01-01" end_date).toFinset = ∅
    · simp [ht]
    · simp [ht, tag_totals_eq_sums]

/-! ## Claim C2 -/

/-- Counterexample for claim C2: the growth-rate computation of
app.generate_report (app.py line 322) carries no zero-baseline guard; at
baseline 0 the division raises and no rate at all is produced (the report
aborts to None), rather than the rate 0 the claim requires of every rate
computation. -/
theorem claim_C2_counterexample :
    app_generate_report_growth_rate 45000 0 = none ∧
    app_generate_report_growth_rate 45000 0 ≠ some 0 := by
  refine ⟨rfl, ?_⟩
  simp [app_generate_report_growth_rate]

/-- Claim C2 as amended: the overall and per-tag open rates and the
category and paid percentages all satisfy computeRate (round to one
decimal for a positive denominator, 0 for a zero denominator); the
growth rate satisfies it in the service-layer report builder, which guards
the zero baseline; the app-level generate_report computes the same value
for a positive baseline but is unguarded at baseline 0, where it aborts
with no rate instead of 0. -/
theorem claim_C2_computeRate_sites :
    (∀ (gw : Gateway) (start_date end_date : String),
      (calculate_overall_open_rate gw start_date end_date).average_open_rate
        = computeRate (calculate_overall_open_rate gw start_date end_date).total_opens
            (calculate_overall_open_rate gw start_date end_date).total_recipients) ∧
    (∀ (gw : Gateway) (start_date end_date : String) (tag_id : ℕ),
      (calculate_open_rate_by_tag gw start_date end_date tag_id).average_open_rate
        = computeRate (calculate_open_rate_by_tag gw start_date end_date tag_id).total_opens
            (calculate_open_rate_by_tag gw start_date end_date tag_id).total_recipients) ∧
    (∀ tc fb cr sp cur init : ℕ,
      (generate_subscriber_report tc fb cr sp cur init).facebook_percent = computeRate fb tc ∧
      (generate_subscriber_report tc fb cr sp cur init).creator_percent = computeRate cr tc ∧
      (generate_subscriber_report tc fb cr sp cur init).sparkloop_percent = computeRate sp tc ∧
      (generate_subscriber_report tc fb cr sp cur init).paid_growth_percent
        = computeRate (fb + sp) tc) ∧
    (∀ tc fb cr sp cur init : ℕ, fb + cr + sp ≤ tc →
      (generate_subscriber_report tc fb cr sp cur init).organic_percent
        = computeRate (tc - (fb + cr + sp)) tc) ∧
    (∀ tc fb cr sp cur : ℕ,
      (generate_subscriber_report tc fb cr sp cur 0).growth_rate = 0) ∧
    (∀ tc fb cr sp cur init : ℕ, 0 < init → init ≤ cur →
      (generate_subscriber_report tc fb cr sp cur init).growth_rate
        = computeRate (cur - init) init) ∧
    (∀ cur : ℕ, app_generate_report_growth_rate cur 0 = none) ∧
    (∀ cur init : ℕ, 0 < init →
      app_generate_report_growth_rate cur init
        = some ((generate_subscriber_report 0 0 0 0 cur init).growth_rate)) := by
  refine ⟨?_, ?_, ?_, ?_, ?_, ?_, ?_, ?_⟩
  · intro gw start_date end_date
    unfold calculate_overall_open_rate
    by_cases hb : (gw.get_broadcasts start_date end_date).isEmpty <;>
      simp [hb, computeRate]
  · intro gw start_date end_date tag_id
    unfold calculate_open_rate_by_tag
    by_cases hb : (gw.get_broadcasts start_date end_date).isEmpty
    · simp [hb, computeRate]
    · by_cases ht : (gw.get_tagged_subscribers tag_id "2000-01-01" end_date).toFinset = ∅ <;>
        simp [hb, ht, computeRate]
  · intro tc fb cr sp cur init
    exact ⟨rfl, rfl, rfl, rfl⟩
  · intro tc fb cr sp cur init h
    simp only [generate_subscriber_report, computeRate]
    have hc : (((tc - (fb + cr + sp) : ℕ) : ℚ))
        = ((tc : ℤ) - ((fb + cr + sp : ℕ) : ℤ) : ℚ) := by
      push_cast [h]
      ring
    rw [hc]
    push_cast
    ring_nf
  · intro tc fb cr sp cur
    simp [generate_subscriber_report]
  · intro tc fb cr sp cur init h1 h2
    simp only [generate_subscriber_report, computeRate, h1, if_pos]
    have hc : (((cur - init : ℕ) : ℚ)) = (((cur : ℤ) - (init : ℤ) : ℤ) : ℚ) := by
      push_cast [h2]
      ring
    rw [hc]
  · intro cur
    rfl
  · intro cur init h
    have h0 : init ≠ 0 := Nat.pos_iff_ne_zero.mp h
    simp only [app_generate_report_growth_rate, generate_subscriber_report, h0, if_neg,
      if_pos, h]
    norm_num

/-- Witness for claim C2 at concrete inputs: organic percent with
attributed 350 of total 1000, growth rate with baseline 41000 and current
total 45000 in both the guarded service variant and the unguarded app
variant. -/
theorem claim_C2_computeRate_sites_witness :
    (200 + 100 + 50 ≤ 1000 ∧
      (generate_subscriber_report 1000 200 100 50 45000 41000).organic_percent
        = computeRate (1000 - (200 + 100 + 50)) 1000) ∧
    (0 < 41000 ∧ 41000 ≤ 45000 ∧
      (generate_subscriber_report 0 0 0 0 45000 41000).growth_rate
        = computeRate (45000 - 41000) 41000) ∧
    (0 < 41000 ∧
      app_generate_report_growth_rate 45000 41000
        = some ((generate_subscriber_report 0 0 0 0 45000 41000).growth_rate)) :=
  ⟨⟨by decide,
    claim_C2_computeRate_sites.2.2.2.1 1000 200 100 50 45000 41000 (by decide)⟩,
   ⟨by decide, by decide,
    claim_C2_computeRate_sites.2.2.2.2.2.1 0 0 0 0 45000 41000 (by decide) (by decide)⟩,
   ⟨by decide,
    claim_C2_computeRate_sites.2.2.2.2.2.2.2 45000 41000 (by decide)⟩⟩

/-! ## Claim C5 -/

theorem paginate_cons_ok (p : Page) (rest : List Page) (h200 : p.status = 200)
    (hnext : p.has_next_page = true) :
    (paginate (p :: rest)).1 = p.records ++ (paginate rest).1 := by
  simp [paginate, h200, hnext]

theorem paginate_cons_last (p : Page) (rest : List Page) (h200 : p.status = 200)
    (hnext : p.has_next_page = false) :
    (paginate (p :: rest)).1 = p.records := by
  simp [paginate, h200, hnext]

theorem paginate_cons_err (p : Page) (rest : List Page) (h : p.status ≠ 200) :
    (paginate (p :: rest)).1 = [] := by
  simp [paginate, h]

/-- Claim C5: over a well-formed simulated paginated sequence (every page
status 200, has_next_page true on every page but the last), the full-record
variant of get_subscribers returns the concatenation of the per-page record
lists, the single-shot return-all result; and a non-200 page truncates the
loop silently, returning exactly the records of the 200 pages before it. -/
theorem claim_C5_pagination :
    (∀ pages : List Page, chainOk pages = true →
      get_subscribers_full pages = return_all pages) ∧
    (∀ (good : List Page) (bad : Page) (rest : List Page),
      (∀ p ∈ good, p.status = 200 ∧ p.has_next_page = true) →
      bad.status ≠ 200 →
      get_subscribers_full (good ++ bad :: rest) = return_all good) := by
  constructor
  · intro pages
    induction pages with
    | nil => intro _; rfl
    | cons p rest ih =>
      intro h
      match rest, h with
      | [], h =>
        simp only [chainOk, Bool.and_eq_true, beq_iff_eq, Bool.not_eq_eq_eq_not,
          Bool.not_true] at h
        simp [get_subscribers_full, paginate_cons_last p [] h.1 h.2, return_all]
      | q :: rest2, h =>
        simp only [chainOk, Bool.and_eq_true, beq_iff_eq] at h
        obtain ⟨⟨h200, hnext⟩, hchain⟩ := h
        have ihq := ih (by simpa [chainOk] using hchain)
        simp only [get_subscribers_full] at ihq ⊢
        rw [paginate_cons_ok p (q :: rest2) h200 hnext, ihq]
        simp [return_all]
  · intro good bad rest hgood hbad
    induction good with
    | nil =>
      simp only [List.nil_append, get_subscribers_full]
      rw [paginate_cons_err bad rest hbad]
      rfl
    | cons g good2 ih =>
      have hg := hgood g (by simp)
      have ih2 := ih (fun p hp => hgood p (by simp [hp]))
      simp only [List.cons_append, get_subscribers_full] at ih2 ⊢
      rw [paginate_cons_ok g (good2 ++ bad :: rest) hg.1 hg.2, ih2]
      simp [return_all]

/-- Witness for claim C5: a three-page well-formed sequence concatenates,
and a non-200 second page truncates to the first page's records. -/
theorem claim_C5_pagination_witness :
    (chainOk [⟨200, [1, 2], true⟩, ⟨200, [3], true⟩, ⟨200, [4, 5], false⟩] = true ∧
      get_subscribers_full [⟨200, [1, 2], true⟩, ⟨200, [3], true⟩, ⟨200, [4, 5], false⟩]
        = return_all [⟨200, [1, 2], true⟩, ⟨200, [3], true⟩, ⟨200, [4, 5], false⟩]) ∧
    ((∀ p ∈ [(⟨200, [1, 2], true⟩ : Page)], p.status = 200 ∧ p.has_next_page = true) ∧
      (500 : ℕ) ≠ 200 ∧
      get_subscribers_full [⟨200, [1, 2], true⟩, ⟨500, [9], true⟩, ⟨200, [4], false⟩]
        = return_all [⟨200, [1, 2], true⟩]) :=
  ⟨⟨by decide,
    claim_C5_pagination.1 [⟨200, [1, 2], true⟩, ⟨200, [3], true⟩, ⟨200, [4, 5], false⟩]
      (by decide)⟩,
   ⟨by decide, by decide,
    claim_C5_pagination.2 [⟨200, [1, 2], true⟩] ⟨500, [9], true⟩ [⟨200, [4], false⟩]
      (by decide) (by decide)⟩⟩

/-! ## Claim C6 -/

theorem rate_limited_request_eq (status : ℕ → ℕ) :
    rate_limited_request status =
      if status 0 ≠ 429 then (0, [])
      else if status 1 ≠ 429 then (1, [1])
      else if status 2 ≠ 429 then (2, [1, 2])
      else (2, [1, 2, 3]) := by
  by_cases h0 : status 0 = 429 <;> by_cases h1 : status 1 = 429 <;>
    by_cases h2 : status 2 = 429 <;>
      simp [rate_limited_request, MAX_RETRIES, rate_limited_go, RETRY_DELAY, h0, h1, h2]

/-- Claim C6: _rate_limited_request issues at most MAX_RETRIES = 3
requests; every attempt before the returned one answered 429 and slept
RETRY_DELAY times the attempt number; two 429s followed by a 200 give
exactly two sleeps and return the 200 response; three 429s give the last
429 response back without raising. -/
theorem claim_C6_rate_limited (status : ℕ → ℕ) :
    (rate_limited_request status).1 + 1 ≤ MAX_RETRIES ∧
    (∀ i, i < (rate_limited_request status).1 → status i = 429) ∧
    (status (rate_limited_request status).1 ≠ 429 →
      (rate_limited_request status).2
        = (List.range (rate_limited_request status).1).map (fun i => RETRY_DELAY * (i + 1))) ∧
    (status (rate_limited_request status).1 = 429 →
      (rate_limited_request status).1 = MAX_RETRIES - 1 ∧
      (rate_limited_request status).2
        = (List.range MAX_RETRIES).map (fun i => RETRY_DELAY * (i + 1))) ∧
    (status 0 = 429 → status 1 = 429 → status 2 = 200 →
      rate_limited_request status = (2, [RETRY_DELAY * 1, RETRY_DELAY * 2]) ∧
      status (rate_limited_request status).1 = 200) ∧
    ((∀ i, i < MAX_RETRIES → status i = 429) →
      rate_limited_request status = (MAX_RETRIES - 1, [1, 2, 3]) ∧
      status (rate_limited_request status).1 = 429) := by
  refine ⟨?_, ?_, ?_, ?_, ?_, ?_⟩
  · rw [rate_limited_request_eq]
    split_ifs <;> norm_num [MAX_RETRIES]
  · rw [rate_limited_request_eq]
    split_ifs with g0 g1 g2
    · intro i hi
      simp at hi
    · intro i hi
      simp [Nat.lt_one_iff] at hi
      subst hi
      exact not_not.mp g0
    · intro i hi
      simp at hi
      interval_cases i
      · exact not_not.mp g0
      · exact not_not.mp g1
    · intro i hi
      simp at hi
      interval_cases i
      · exact not_not.mp g0
      · exact not_not.mp g1
  · rw [rate_limited_request_eq]
    split_ifs with g0 g1 g2
    · intro h
      rfl
    · intro h
      rfl
    · intro h
      rfl
    · intro h
      rw [not_not] at g2
      simp at h
      exact absurd g2 h
  · rw [rate_limited_request_eq]
    split_ifs with g0 g1 g2
    · intro h
      simp at h
      exact absurd h g0
    · intro h
      simp at h
      exact absurd h g1
    · intro h
      simp at h
      exact absurd h g2
    · intro h
      exact ⟨rfl, rfl⟩
  · intro a0 a1 a2
    rw [rate_limited_request_eq]
    simp [a0, a1, a2, RETRY_DELAY]
  · intro hall
    have a0 := hall 0 (by norm_num [MAX_RETRIES])
    have a1 := hall 1 (by norm_num [MAX_RETRIES])
    have a2 := hall 2 (by norm_num [MAX_RETRIES])
    rw [rate_limited_request_eq]
    simp [a0, a1, a2, MAX_RETRIES]

/-- Transport of the quoted retry scenario: 429 on the first two attempts,
200 afterwards. -/
def retryStatusExample : ℕ → ℕ := fun i => if i < 2 then 429 else 200

/-- Witness for claim C6 on the quoted scenario: two sleeps of RETRY_DELAY
times 1 and 2, and the returned response is the third attempt's 200. -/
theorem claim_C6_rate_limited_witness :
    retryStatusExample 0 = 429 ∧ retryStatusExample 1 = 429 ∧ retryStatusExample 2 = 200 ∧
    rate_limited_request retryStatusExample = (2, [RETRY_DELAY * 1, RETRY_DELAY * 2]) ∧
    retryStatusExample (rate_limited_request retryStatusExample).1 = 200 :=
  ⟨rfl, rfl, rfl,
   ((claim_C6_rate_limited retryStatusExample).2.2.2.2.1 rfl rfl rfl).1,
   ((claim_C6_rate_limited retryStatusExample).2.2.2.2.1 rfl rfl rfl).2⟩

/-! ## Claim C9 -/

/-- Broadcast published at 10:00:00 on 2024-01-31, the last day of the
report window of the failing input. -/
def exampleBroadcastLate : Broadcast :=
  ⟨99, some (86400 * days_from_civil ⟨2024, 1, 31⟩ + 36000)⟩

/-- Claim C9 is right about the intended window and wrong about the code:
get_broadcasts parses end_date to midnight (datetime.strptime of the plain
date string), so a broadcast published later on the end day fails the
start_dt <= dt <= end_dt filter and is dropped, where the claimed
normalization to 23:59:59 would keep it; only a broadcast at exactly
midnight of the end day passes. -/
theorem claim_C9_end_boundary_bug :
    in_window_code (days_from_civil ⟨2024, 1, 1⟩) (days_from_civil ⟨2024, 1, 31⟩)
      exampleBroadcastLate = false ∧
    in_window_spec (days_from_civil ⟨2024, 1, 1⟩) (days_from_civil ⟨2024, 1, 31⟩)
      exampleBroadcastLate = true ∧
    get_broadcasts_window (days_from_civil ⟨2024, 1, 1⟩) (days_from_civil ⟨2024, 1, 31⟩)
      [⟨200, [exampleBroadcastLate], false⟩] = [] ∧
    in_window_code (days_from_civil ⟨2024, 1, 1⟩) (days_from_civil ⟨2024, 1, 31⟩)
      ⟨98, some (86400 * days_from_civil ⟨2024, 1, 31⟩)⟩ = true := by
  decide

/-! ## Claim C7 -/

theorem dictInsert_of_not_mem (m : List (String × RemoteTag)) (k : String)
    (v : RemoteTag) (h : m.any (fun p => p.1 == k) = false) :
    dictInsert m k v = m ++ [(k, v)] := by
  simp [dictInsert, h]

theorem build_tag_map_go (ts : List RemoteTag) :
    ∀ m : List (String × RemoteTag),
      (m.map Prod.fst ++ ts.map (fun t => pyLower t.name)).Nodup →
      ts.foldl (fun acc t => dictInsert acc (pyLower t.name) t) m
        = m ++ ts.map (fun t => (pyLower t.name, t)) := by
  induction ts with
  | nil =>
    intro m _
    simp
  | cons t ts ih =>
    intro m h
    simp only [List.map_cons, List.foldl_cons]
    have hk : pyLower t.name ∉ m.map Prod.fst := by
      rcases List.nodup_append.mp h with ⟨-, -, hdisj⟩
      intro hmem
      exact hdisj hmem (by simp)
    have hany : m.any (fun p => p.1 == pyLower t.name) = false := by
      rw [List.any_eq_false]
      intro p hp
      simp only [beq_iff_eq]
      intro hq
      exact hk (hq ▸ List.mem_map_of_mem Prod.fst hp)
    rw [dictInsert_of_not_mem _ _ _ hany]
    rw [ih (m ++ [(pyLower t.name, t)])]
    · simp
    · rw [List.map_cons, List.append_cons] at h
      simpa [List.map_append, List.append_assoc] using h

theorem build_tag_map_of_nodup (tags : List RemoteTag)
    (h : (tags.map (fun t => pyLower t.name)).Nodup) :
    build_tag_map tags = tags.map (fun t => (pyLower t.name, t)) := by
  have hgo := build_tag_map_go tags [] (by simpa using h)
  simpa [build_tag_map] using hgo

theorem find_variant_match_of_nodup (tags : List RemoteTag)
    (h : (tags.map (fun t => pyLower t.name)).Nodup) (vl : List String) :
    find_variant_match (build_tag_map tags) vl = find_closest_tag_claim tags vl := by
  induction vl with
  | nil => rfl
  | cons v vs ih =>
    simp only [find_variant_match, find_closest_tag_claim]
    rw [build_tag_map_of_nodup tags h, List.find?_map]
    have hp : ((fun p : String × RemoteTag => substrIn v (pyLower p.1)) ∘
        (fun t : RemoteTag => (pyLower t.name, t)))
        = fun t : RemoteTag => substrIn v (pyLower t.name) := by
      funext t
      simp [Function.comp, pyLower_idem]
    rw [hp]
    cases hf : tags.find? (fun t => substrIn v (pyLower t.name)) with
    | none =>
      rw [← build_tag_map_of_nodup tags h]
      simpa using ih
    | some t => simp

/-- Tags whose names collapse to the same lower-cased key: the dict
comprehension keeps only the later one. -/
def dupNameTags : List RemoteTag := [⟨"Facebook", 1⟩, ⟨"FACEBOOK", 2⟩]

/-- Counterexample for claim C7: with two tags whose names differ only in
case, the code resolves the facebook category to the id of the LATER tag
(the dict comprehension overwrites the shared lower-cased key), not the
first tag whose lower-cased name contains the matching variant as the
claim states. -/
theorem claim_C7_counterexample :
    find_closest_tag dupNameTags "facebook" = some 2 ∧
    find_closest_tag_claimed dupNameTags "facebook" = some 1 ∧
    find_closest_tag dupNameTags "facebook"
      ≠ find_closest_tag_claimed dupNameTags "facebook" := by
  refine ⟨by decide, by decide, by decide⟩

/-- Claim C7 as amended: on tag lists whose lower-cased names are pairwise
distinct, _find_closest_tag iterates the static variant list of the
category in priority order and returns the id of the first tag whose
lower-cased name contains the current variant as a substring (represented
by the transcription find_closest_tag_claimed); when no variant matches
any tag it returns the hardcoded per-category default, so for the three
known categories it always returns a value. -/
theorem claim_C7_tag_resolution :
    (∀ (tags : List RemoteTag) (tag_type : String),
      (tags.map (fun t => pyLower t.name)).Nodup →
      find_closest_tag tags tag_type = find_closest_tag_claimed tags tag_type) ∧
    (∀ (tags : List RemoteTag) (tag_type : String),
      find_variant_match (build_tag_map tags) (TAG_VARIATIONS tag_type) = none →
      find_closest_tag tags tag_type = default_tags tag_type) ∧
    (∀ (tags : List RemoteTag) (tag_type : String),
      tag_type = "facebook" ∨ tag_type = "creator" ∨ tag_type = "sparkloop" →
      (find_closest_tag tags tag_type).isSome = true) := by
  refine ⟨?_, ?_, ?_⟩
  · intro tags tag_type h
    unfold find_closest_tag find_closest_tag_claimed
    rw [find_variant_match_of_nodup tags h]
  · intro tags tag_type h
    unfold find_closest_tag
    rw [h]
  · intro tags tag_type h
    unfold find_closest_tag
    cases hm : find_variant_match (build_tag_map tags) (TAG_VARIATIONS tag_type) with
    | some i => rfl
    | none => rcases h with rfl | rfl | rfl <;> rfl

/-- Tags with pairwise-distinct lower-cased names, for the claim C7
witness. -/
def distinctNameTags : List RemoteTag := [⟨"Newsletter", 10⟩, ⟨"Facebook Ads", 11⟩]

/-- Witness for claim C7 on concrete distinct-name tags: the code agrees
with the claimed first-match scan, and resolution of a category always
yields a value. -/
theorem claim_C7_tag_resolution_witness :
    ((distinctNameTags.map (fun t => pyLower t.name)).Nodup ∧
      find_closest_tag distinctNameTags "facebook"
        = find_closest_tag_claimed distinctNameTags "facebook") ∧
    (("creator" = "facebook" ∨ "creator" = "creator" ∨ "creator" = "sparkloop") ∧
      (find_closest_tag distinctNameTags "creator").isSome = true) :=
  ⟨⟨by decide, claim_C7_tag_resolution.1 distinctNameTags "facebook" (by decide)⟩,
   ⟨Or.inr (Or.inl rfl),
    claim_C7_tag_resolution.2.2 distinctNameTags "creator" (Or.inr (Or.inl rfl))⟩⟩
